import Mathlib

/- Verification of the BADC text file library (BADCtf.py).

   Shallow embedding notes.
   The source is Python 2.  Rows of the CSV layer are modelled as
   "List String" (the csv module writes and reads back cell lists
   unchanged, so serialisation and parsing are modelled at row
   granularity).  All cell and metadata values are strings, as they are
   on every parsed document; exceptions are modelled with "Except Err".
   Exception classes of the source map to constructors of "Err";
   "BADCtfMetadataNonstandard" is a subclass of "BADCtfMetadataInvalid"
   in the source and gets its own constructor here.  Python dict
   iteration order over "BADCtf.MDinfo" is not derivable from the source
   text (Python 2 hash order); following the determinism requirement of
   the specification, the registry is embedded as a list in lexicographic
   label order (the label "Conventions" sorts first, before all
   lowercase labels). -/

/-- Error kinds: one constructor per exception class raised or named by the
source, plus the builtin Python exceptions its code can raise. -/
inductive Err where
  | badcTfError
  | badcTfParseError
  | badcTfDataError
  | metadataInvalid
  | metadataIncomplete
  | metadataNonstandard
  | valueError
  | notImplementedError
  | indexError
  | assertionError
  | nameError
deriving DecidableEq, Repr

instance {ε α : Type} [DecidableEq ε] [DecidableEq α] : DecidableEq (Except ε α) :=
  fun x y =>
    match x, y with
    | .ok a, .ok b =>
      if h : a = b then .isTrue (congrArg Except.ok h)
      else .isFalse (fun c => h (Except.ok.inj c))
    | .ok _, .error _ => .isFalse (fun c => Except.noConfusion c)
    | .error _, .ok _ => .isFalse (fun c => Except.noConfusion c)
    | .error e, .error f =>
      if h : e = f then .isTrue (congrArg Except.error h)
      else .isFalse (fun c => h (Except.error.inj c))

/-- Python values, as far as the embedding needs to distinguish them: the
scope argument "ref" of add_record is type-tested with type(ref) == str, so
a non-string value must be representable. -/
inductive PyV where
  | str (s : String)
  | int (n : Int)
deriving DecidableEq, Repr

/-- Run an action for each element, stopping at the first raised exception
(models a Python for loop whose body may raise). -/
def eachM {α : Type} (f : α → Except Err Unit) : List α → Except Err Unit
  | [] => .ok ()
  | x :: xs =>
    match f x with
    | .error e => .error e
    | .ok _ => eachM f xs

/-- Sequence two statements; an exception in the first aborts the second. -/
def seqE (a b : Except Err Unit) : Except Err Unit :=
  match a with
  | .error e => .error e
  | .ok _ => b

/-- Map an exception-raising function over a list, stopping at the first
exception (models a Python loop that builds a list). -/
def exceptMapM {α β : Type} (f : α → Except Err β) : List α → Except Err (List β)
  | [] => .ok []
  | x :: xs =>
    match f x with
    | .error e => .error e
    | .ok y =>
      match exceptMapM f xs with
      | .error e => .error e
      | .ok ys => .ok (y :: ys)

/- Recognisers for the Python numeric literal grammar used by int() and
   float() on strings.  int() accepts optional whitespace, an optional
   sign and a nonempty digit run; float() additionally accepts a decimal
   point and an exponent.  (The special spellings inf and nan that
   float() also accepts are not modelled; no claim touches them.) -/

def isWsChar (c : Char) : Bool := c == ' ' || c == '\t'

def skipWs (l : List Char) : List Char := l.dropWhile isWsChar

def dropSign (l : List Char) : List Char :=
  match l with
  | c :: cs => if c == '+' || c == '-' then cs else c :: cs
  | [] => []

/-- Does int(s) succeed on the string s. -/
def pyIntOk (s : String) : Bool :=
  let l := dropSign (skipWs s.toList)
  let ds := l.takeWhile Char.isDigit
  let r := l.dropWhile Char.isDigit
  !ds.isEmpty && r.all isWsChar

/-- Consume an optional exponent part of a float literal; none on a
malformed exponent. -/
def chompExp (l : List Char) : Option (List Char) :=
  match l with
  | [] => some []
  | c :: rest =>
    if c == 'e' || c == 'E' then
      let rest2 := dropSign rest
      let d := rest2.takeWhile Char.isDigit
      if d.isEmpty then none else some (rest2.dropWhile Char.isDigit)
    else some (c :: rest)

/-- Does float(s) succeed on the string s. -/
def pyFloatOk (s : String) : Bool :=
  let l := dropSign (skipWs s.toList)
  let d1 := l.takeWhile Char.isDigit
  let r1 := l.dropWhile Char.isDigit
  let m : Option (List Char) :=
    match r1 with
    | '.' :: rest =>
      let d2 := rest.takeWhile Char.isDigit
      if d1.isEmpty && d2.isEmpty then none
      else some (rest.dropWhile Char.isDigit)
    | _ => if d1.isEmpty then none else some r1
  match m with
  | none => false
  | some r2 =>
    match chompExp r2 with
    | none => false
    | some r3 => r3.all isWsChar

/- time.strptime(v[0:10], "%Y-%m-%d"): the format compiles to the regular
   expression  \d\d\d\d - (1[0-2]|0[1-9]|[1-9]) - (3[01]|[12]\d|0[1-9]|[1-9])
   and the whole sliced string must be consumed (strptime raises on
   unconverted trailing data). -/

def monthTwo (c1 c2 : Char) : Bool :=
  (c1 == '1' && (c2 == '0' || c2 == '1' || c2 == '2')) ||
  (c1 == '0' && c2.isDigit && c2 != '0')

def dayTwo (c1 c2 : Char) : Bool :=
  (c1 == '3' && (c2 == '0' || c2 == '1')) ||
  ((c1 == '1' || c1 == '2') && c2.isDigit) ||
  (c1 == '0' && c2.isDigit && c2 != '0')

def dayPart (l : List Char) : Bool :=
  (match l with
   | [c1, c2] => dayTwo c1 c2
   | _ => false) ||
  (match l with
   | [c1] => c1.isDigit && c1 != '0'
   | _ => false)

def monthDayPart (l : List Char) : Bool :=
  (match l with
   | c1 :: c2 :: '-' :: rest => monthTwo c1 c2 && dayPart rest
   | _ => false) ||
  (match l with
   | c1 :: '-' :: rest => c1.isDigit && c1 != '0' && dayPart rest
   | _ => false)

/-- Does time.strptime(s, "%Y-%m-%d") succeed with the whole of s consumed
(s is the at most ten character slice v[0:10]). -/
def pyStrptimeOk10 (s : String) : Bool :=
  match s.toList with
  | y1 :: y2 :: y3 :: y4 :: '-' :: rest =>
    y1.isDigit && y2.isDigit && y3.isDigit && y4.isDigit && monthDayPart rest
  | _ => false

/- The metadata value checking functions of BADCtf.py.  Each takes the
   values tuple and raises on failure. -/

/-- checkAllTypes: every value must be one of char, int, float. -/
def checkAllTypes (values : List String) : Except Err Unit :=
  eachM (fun v =>
    if v = "char" ∨ v = "int" ∨ v = "float" then .ok ()
    else .error .valueError) values

/-- checkType(values, str): all values are Lean strings here, mirroring that
every parsed cell value is a Python str, so the isinstance test passes. -/
def checkString (values : List String) : Except Err Unit :=
  eachM (fun _ => .ok ()) values

/-- checkType(values, float) on string values: a string is not an instance of
float, so the source runs i = int(v); f = float(v) inside a try block and
raises ValueError if either fails.  (The test float(i) != f is guarded by
func == int and never fires here.) -/
def checkFloat (values : List String) : Except Err Unit :=
  eachM (fun v =>
    if pyIntOk v && pyFloatOk v then .ok () else .error .valueError) values

/-- checkType(values, int) on string values: int(v) and float(v) must both
succeed; when int(v) succeeds on a string, float(int(v)) = float(v) always
holds (both convert the same integer), so the inequality test never fires. -/
def checkInt (values : List String) : Except Err Unit :=
  eachM (fun v =>
    if pyIntOk v && pyFloatOk v then .ok () else .error .valueError) values

/-- checkLocation: 2 or 4 values must all pass the float check; a single
value passes checkString(values[0]), which iterates the characters of the
string, each of which is a str, so it always succeeds on a string; any
other count raises ValueError. -/
def checkLocation (values : List String) : Except Err Unit :=
  if values.length = 2 ∨ values.length = 4 then checkFloat values
  else if values.length = 1 then .ok ()
  else .error .valueError

/-- checkDate: the first ten characters of every value must parse as
YYYY-MM-DD (time.strptime raises ValueError). -/
def checkDate (values : List String) : Except Err Unit :=
  eachM (fun v =>
    if pyStrptimeOk10 (v.take 10) then .ok () else .error .valueError) values

/-- checkStandardName: prints a warning built from values[0] and values[1]
and never raises when both indices exist; with fewer than two values the
index expression itself raises IndexError. -/
def checkStandardName (values : List String) : Except Err Unit :=
  if values.length < 2 then .error .indexError else .ok ()

/-- checkHeight: calls the undefined name checkfloat; Python resolves the
callable before evaluating the argument, so every call raises NameError. -/
def checkHeight (_values : List String) : Except Err Unit :=
  .error .nameError

/-- checkFeatureType: every value must be one of the fixed enumeration. -/
def checkFeatureType (values : List String) : Except Err Unit :=
  eachM (fun v =>
    if v = "point series" ∨ v = "trajectory" ∨ v = "point collection" then .ok ()
    else .error .valueError) values

/-- checkCoordinateVariables: raise NotImplementedError. -/
def checkCoordinateVariables (_values : List String) : Except Err Unit :=
  .error .notImplementedError

/-- checkCellMethod: raise NotImplementedError. -/
def checkCellMethod (_values : List String) : Except Err Unit :=
  .error .notImplementedError

/-- checkConventions: values[0] must equal BADC-CSV and values[1] must equal
1, else BADCtfMetadataInvalid; missing indices raise IndexError. -/
def checkConventions (values : List String) : Except Err Unit :=
  match values with
  | [] => .error .indexError
  | v0 :: rest =>
    if v0 ≠ "BADC-CSV" then .error .metadataInvalid
    else
      match rest with
      | [] => .error .indexError
      | v1 :: _ =>
        if v1 ≠ "1" then .error .metadataInvalid else .ok ()

/-- checkDataType: values[0] must be one of int, float, char, else
BADCtfMetadataNonstandard (unused by the MDinfo table but present in the
source). -/
def checkDataType (values : List String) : Except Err Unit :=
  match values with
  | [] => .error .indexError
  | v :: _ =>
    if v = "int" ∨ v = "float" ∨ v = "char" then .ok ()
    else .error .metadataNonstandard

/- The document model. -/

/-- BADCtfVariable: a named column holds an ordered list of values (the
name is kept in the data store's colnames list, as in the source). -/
structure BADCtfVariable where
  values : List String
deriving DecidableEq, Repr

/-- BADCtfData: aggregation of variables plus the parallel column names. -/
structure BADCtfData where
  vars : List BADCtfVariable
  colnames : List String
deriving DecidableEq, Repr

/-- BADCtfMetadata: global records (label, values) and per-column records
(label, column, values), each an insertion-ordered list. -/
structure BADCtfMetadata where
  globalRecords : List (String × List String)
  varRecords : List (String × String × List String)
deriving DecidableEq, Repr

/-- BADCtf: the document; the mode and version attributes of the source
carry no data and are not modelled. -/
structure BADCtf where
  _data : BADCtfData
  _metadata : BADCtfMetadata
deriving DecidableEq, Repr

/-- len(self) for the data store: length of variables[0], or 0 if empty. -/
def BADCtfData.length (d : BADCtfData) : Nat :=
  match d.vars with
  | [] => 0
  | v :: _ => v.values.length

/-- nvar: the number of variables. -/
def BADCtfData.nvar (d : BADCtfData) : Nat := d.vars.length

/-- The equal-length invariant: every variable has the shared row count. -/
def BADCtfData.uniform (d : BADCtfData) : Bool :=
  d.vars.all (fun v => v.values.length == d.length)

/-- BADCtfData.add_variable: append a variable if the store is empty or the
new values match len(variables[0]) (modelled by BADCtfData.length, which the
short-circuiting or makes safe); else raise the base BADCtfError. -/
def BADCtfData.add_variable (d : BADCtfData) (name : String) (values : List String) :
    Except Err BADCtfData :=
  if d.vars.length = 0 ∨ values.length = d.length then
    .ok { vars := d.vars ++ [⟨values⟩], colnames := d.colnames ++ [name] }
  else
    .error .badcTfError

/-- BADCtfData.add_data_row: with no variables and a nonempty row, create
one single-valued variable per value (colnames stays untouched, as in the
source); with matching width append positionally; else raise the base
BADCtfError. -/
def BADCtfData.add_data_row (d : BADCtfData) (values : List String) :
    Except Err BADCtfData :=
  if d.nvar = 0 ∧ values.length ≠ 0 then
    .ok { d with vars := values.map (fun v => ⟨[v]⟩) }
  else if d.nvar = values.length then
    .ok { d with
          vars := d.vars.zipWith (fun var v => ⟨var.values ++ [v]⟩) values }
  else
    .error .badcTfError

/-- getrow(i): variables[j][i] for each j; an index past a short variable
raises IndexError. -/
def BADCtfData.getrow (d : BADCtfData) (i : Nat) : Except Err (List String) :=
  exceptMapM (fun v =>
    match v.values.get? i with
    | some x => .ok x
    | none => .error .indexError) d.vars

/-- BADCtfData.csv: the Data marker row, the column name row, one row per
data record, and the End Data marker row. -/
def BADCtfData.csvRows (d : BADCtfData) : Except Err (List (List String)) :=
  match exceptMapM d.getrow (List.range d.length) with
  | .error e => .error e
  | .ok rows => .ok ([["Data"], d.colnames] ++ rows ++ [["End Data"]])

/-- Metadata getitem with a bare label: the values of every global record
with that label, in insertion order. -/
def BADCtfMetadata.getLabel (md : BADCtfMetadata) (lab : String) :
    List (List String) :=
  md.globalRecords.filterMap (fun r => if lab = r.1 then some r.2 else none)

/-- Metadata getitem with a (label, column) pair: first every matching
global record (regardless of the column argument), then every column record
whose label matches and whose column matches or is asked for with the "*"
wildcard.  The source has a further clause for the label wildcard lab equal
to "*", collecting heterogeneous (label, values) pairs; no call modelled
here passes a "*" label, and that clause is not modelled. -/
def BADCtfMetadata.getLabelCol (md : BADCtfMetadata) (lab col : String) :
    List (List String) :=
  md.globalRecords.filterMap (fun r => if lab = r.1 then some r.2 else none) ++
  md.varRecords.filterMap (fun r =>
    if lab = r.1 ∧ (col = r.2.1 ∨ col = "*") then some r.2.2 else none)

/-- BADCtfMetadata.add_record: a str ref equal to G appends a global record,
any other str ref appends a column record, and a non-string ref appends
nothing at all (neither branch of the if/elif fires).  The values argument
is already a tuple at every modelled call site, so the tuple coercion line
is the identity. -/
def BADCtfMetadata.add_record (md : BADCtfMetadata) (label : String)
    (values : List String) (ref : PyV) : BADCtfMetadata :=
  match ref with
  | .str r =>
    if r = "G" then
      { md with globalRecords := md.globalRecords ++ [(label, values)] }
    else
      { md with varRecords := md.varRecords ++ [(label, r, values)] }
  | _ => md

/-- BADCtfMetadata.csv: one row per global record (label, G, values...) then
one row per column record (label, column, values...). -/
def BADCtfMetadata.csvRows (md : BADCtfMetadata) : List (List String) :=
  md.globalRecords.map (fun r => r.1 :: "G" :: r.2) ++
  md.varRecords.map (fun r => r.1 :: r.2.1 :: r.2.2)

/- The BADCtf document operations. -/

/-- colnames(): the names of the data columns. -/
def BADCtf.colnames (tf : BADCtf) : List String := tf._data.colnames

/-- add_variable, delegating to the data store (default data is the empty
tuple). -/
def BADCtf.add_variable (tf : BADCtf) (colname : String)
    (data : List String := []) : Except Err BADCtf :=
  match tf._data.add_variable colname data with
  | .error e => .error e
  | .ok d => .ok { tf with _data := d }

/-- add_datarecord, delegating to the data store. -/
def BADCtf.add_datarecord (tf : BADCtf) (datavalues : List String) :
    Except Err BADCtf :=
  match tf._data.add_data_row datavalues with
  | .error e => .error e
  | .ok d => .ok { tf with _data := d }

/-- add_metadata, delegating to the metadata store; the default ref is the
string G. -/
def BADCtf.add_metadata (tf : BADCtf) (label : String) (values : List String)
    (ref : PyV := .str "G") : BADCtf :=
  { tf with _metadata := tf._metadata.add_record label values ref }

/-- A document with empty data and metadata stores, the state both
constructor modes start from. -/
def BADCtf.empty : BADCtf :=
  { _data := { vars := [], colnames := [] },
    _metadata := { globalRecords := [], varRecords := [] } }

/-- Write-mode construction: a fresh document carries the single global
record Conventions = (BADC-CSV, 1). -/
def BADCtf.new : BADCtf :=
  BADCtf.empty.add_metadata "Conventions" ["BADC-CSV", "1"] (.str "G")

/-- Python str.lower(), for the ASCII section markers the parser compares
against (structural map so that concrete evaluation reduces). -/
def pyLower (s : String) : String := ⟨s.data.map Char.toLower⟩

/-- The repeated trailing blank cell stripping, while row[-1] == the empty
string: row = row[:-1].  Indexing row[-1] on an empty row raises IndexError,
both when the row is empty on entry and when stripping exhausts it. -/
def strip_blank_cells (row : List String) : Except Err (List String) :=
  let r := (row.reverse.dropWhile (fun c => c == "")).reverse
  if r.isEmpty then .error .indexError else .ok r

/-- Fold of add_variable over the cells of the column header row. -/
def BADCtf.add_variables (tf : BADCtf) : List String → Except Err BADCtf
  | [] => .ok tf
  | c :: cs =>
    match tf.add_variable c [] with
    | .error e => .error e
    | .ok tf2 => tf2.add_variables cs

/-- The row loop of BADCtf._parse: sec 1 collects metadata until a
single-cell data row, sec 2 reads the one column header row, sec 3 appends
data rows until a single-cell end data row; other single-cell rows are
silently skipped, exceptions propagate. -/
def parse_rows (tf : BADCtf) (sec : Nat) : List (List String) → Except Err BADCtf
  | [] => .ok tf
  | row :: rest =>
    if sec = 1 then
      match strip_blank_cells row with
      | .error e => .error e
      | .ok r =>
        match r with
        | [] => parse_rows tf 1 rest
        | [x] =>
          if pyLower x = "data" then parse_rows tf 2 rest
          else parse_rows tf 1 rest
        | label :: ref :: values =>
          parse_rows (tf.add_metadata label values (.str ref)) 1 rest
    else if sec = 2 then
      match strip_blank_cells row with
      | .error e => .error e
      | .ok r =>
        match tf.add_variables r with
        | .error e => .error e
        | .ok tf2 => parse_rows tf2 3 rest
    else if sec = 3 then
      match strip_blank_cells row with
      | .error e => .error e
      | .ok r =>
        match r with
        | [] => parse_rows tf 3 rest
        | [x] =>
          if pyLower x = "end data" then .ok tf
          else parse_rows tf 3 rest
        | _ => match tf.add_datarecord r with
          | .error e => .error e
          | .ok tf2 => parse_rows tf2 3 rest
    else
      parse_rows tf sec rest

/-- BADCtf._parse at row granularity: populate a fresh document from the
rows the csv reader yields (read-mode construction then runs _check_valid
on the result; the claims reference _parse itself). -/
def BADCtf._parse (rows : List (List String)) : Except Err BADCtf :=
  parse_rows BADCtf.empty 1 rows

/-- BADCtf._csv at row granularity: the metadata rows followed by the data
section rows. -/
def BADCtf._csv (tf : BADCtf) : Except Err (List (List String)) :=
  match tf._data.csvRows with
  | .error e => .error e
  | .ok rows => .ok (tf._metadata.csvRows ++ rows)

/- The schema registry MDinfo and the validator. -/

/-- FieldSpec: one MDinfo entry; flags whether the label may apply globally
or to a column, the value-count bounds, the mandatory levels for basic and
complete files, the checking function and the descriptive text. -/
structure FieldSpec where
  applyg : Bool
  applyc : Bool
  mino : Nat
  maxo : Nat
  mandb : Nat
  mandc : Nat
  check : List String → Except Err Unit
  meaning : String

/-- The MDinfo table, in lexicographic label order (see the header note on
Python 2 dict iteration order). -/
def MDinfoList : List (String × FieldSpec) :=
  [ ("Conventions",
      ⟨true, false, 2, 2, 1, 1, checkConventions,
       "Metadata conventions used. Must be BADC-CSV, 1"⟩),
    ("activity",
      ⟨true, true, 1, 1, 0, 1, checkString,
       "The name of the activity sponsoring the collection of the data "⟩),
    ("add_offset",
      ⟨false, true, 1, 1, 0, 0, checkFloat,
       "An offset value to add to the values recorded in the data"⟩),
    ("cell_method",
      ⟨true, true, 1, 4, 0, 0, checkCellMethod,
       "The cell method used in preparing the data"⟩),
    ("comments",
      ⟨true, true, 1, 1, 0, 0, checkString,
       "Any text associated with data"⟩),
    ("contributor",
      ⟨true, true, 1, 2, 0, 0, checkString,
       "The name of the person and/or institute that contributed to the data"⟩),
    ("coordinate_variable",
      ⟨false, true, 0, 2, 1, 1, checkInt,
       "Flag to show which colume(s) are regarded as coordinate variables"⟩),
    ("creator",
      ⟨true, true, 1, 2, 0, 1, checkString,
       "The name of the person and/or institute that created the data"⟩),
    ("date_valid",
      ⟨true, true, 1, 2, 0, 1, checkDate,
       "The date the data is valid for. Needs to be YYYY-MM-DD form"⟩),
    ("feature_type",
      ⟨true, false, 1, 1, 0, 1, checkFeatureType,
       "type of feature: point series, trajectory or point collection"⟩),
    ("height",
      ⟨true, true, 2, 2, 0, 0, checkHeight,
       "Height valid for data"⟩),
    ("history",
      ⟨true, true, 1, 1, 0, 0, checkString,
       "Text description of the file history"⟩),
    ("last_revised_date",
      ⟨true, true, 1, 1, 0, 1, checkDate,
       "The date the data was revised or worked up. Needs to be YYYY-MM-DD form"⟩),
    ("location",
      ⟨true, true, 1, 4, 0, 1, checkLocation,
       "Location for the data. Can be a name, bounding box, or lat and long values"⟩),
    ("long_name",
      ⟨false, true, 2, 2, 2, 2, checkString,
       "Description of variable and its unit"⟩),
    ("observation_station",
      ⟨true, true, 1, 1, 0, 1, checkString,
       "The name of the observation station or instrument platform used"⟩),
    ("reference",
      ⟨true, true, 1, 1, 0, 0, checkString,
       "Bibliographic reference"⟩),
    ("rights",
      ⟨true, true, 1, 1, 0, 0, checkString,
       "Conditions of use for the data"⟩),
    ("scale_factor",
      ⟨false, true, 1, 1, 0, 0, checkFloat,
       "A scale factor to multiply the data values by"⟩),
    ("source",
      ⟨true, true, 1, 1, 0, 1, checkString,
       "The name of the tool used to produce the data. e.g. model name or instrument type"⟩),
    ("standard_name",
      ⟨false, true, 3, 3, 0, 0, checkStandardName,
       "Name of variable from a standard list, with unit and the name of the list"⟩),
    ("title",
      ⟨true, false, 1, 1, 0, 0, checkString,
       "A title for the data file"⟩),
    ("type",
      ⟨false, true, 1, 1, 0, 2, checkAllTypes,
       "The type of the variables in a column. Should be char, int or float"⟩),
    ("valid_max",
      ⟨true, true, 1, 1, 0, 0, checkFloat,
       "Values above this value should be interpreted as missing"⟩),
    ("valid_min",
      ⟨true, true, 1, 1, 0, 0, checkFloat,
       "Values below this value should be interpreted as missing"⟩),
    ("valid_range",
      ⟨true, true, 2, 2, 0, 0, checkFloat,
       "Values outside this range should be interperated as missing"⟩) ]

/-- The value-count bounds check of _check_valid: more than maxo or fewer
than mino values raises BADCtfMetadataInvalid. -/
def lenCheck (mino maxo : Nat) (values : List String) : Except Err Unit :=
  if values.length > maxo then .error .metadataInvalid
  else if values.length < mino then .error .metadataInvalid
  else .ok ()

/-- The first scope check of _check_valid for one label: a label that cannot
apply globally but has a global record raises BADCtfMetadataInvalid. -/
def valid_scope_g (tf : BADCtf) (label : String) (fs : FieldSpec) :
    Except Err Unit :=
  if !fs.applyg && tf._metadata.getLabel label != [] then
    .error .metadataInvalid
  else .ok ()

/-- The second scope check of _check_valid: a label that cannot apply to a
column is scanned for on all columns, but only when it has no global
record (the source guards the scan with self[label] == []). -/
def valid_scope_c (tf : BADCtf) (label : String) (fs : FieldSpec) :
    Except Err Unit :=
  if !fs.applyc && tf._metadata.getLabel label == [] then
    eachM (fun colname =>
      if tf._metadata.getLabelCol label colname != [] then
        .error .metadataInvalid
      else .ok ()) tf.colnames
  else .ok ()

/-- The value-count check of _check_valid over the global records of the
label. -/
def valid_len_g (tf : BADCtf) (label : String) (fs : FieldSpec) :
    Except Err Unit :=
  eachM (lenCheck fs.mino fs.maxo) (tf._metadata.getLabel label)

/-- The value-count check of _check_valid over the column records of the
label, column by column. -/
def valid_len_c (tf : BADCtf) (label : String) (fs : FieldSpec) :
    Except Err Unit :=
  eachM (fun colname =>
    eachM (lenCheck fs.mino fs.maxo) (tf._metadata.getLabelCol label colname))
    tf.colnames

/-- The value check of _check_valid over the global records: any exception
from the check function is caught by the bare except and re-raised as
BADCtfMetadataInvalid. -/
def valid_val_g (tf : BADCtf) (label : String) (fs : FieldSpec) :
    Except Err Unit :=
  eachM (fun values =>
    match fs.check values with
    | .error _ => .error Err.metadataInvalid
    | .ok _ => .ok ()) (tf._metadata.getLabel label)

/-- The value check of _check_valid over the column records: the check
function is called unwrapped, so its own exception propagates. -/
def valid_val_c (tf : BADCtf) (label : String) (fs : FieldSpec) :
    Except Err Unit :=
  eachM (fun colname =>
    eachM fs.check (tf._metadata.getLabelCol label colname)) tf.colnames

/-- The body of the _check_valid loop for one label: the two scope checks,
the value-count checks on global then column records, then the value
checks, in source order. -/
def check_label_valid (tf : BADCtf) (label : String) (fs : FieldSpec) :
    Except Err Unit :=
  seqE (valid_scope_g tf label fs)
    (seqE (valid_scope_c tf label fs)
      (seqE (valid_len_g tf label fs)
        (seqE (valid_len_c tf label fs)
          (seqE (valid_val_g tf label fs)
            (valid_val_c tf label fs)))))

/-- BADCtf._check_valid: run the per-label check over the registry. -/
def BADCtf._check_valid (tf : BADCtf) : Except Err Unit :=
  eachM (fun p => check_label_valid tf p.1 p.2) MDinfoList

/-- The body of the _check_complete loop for one label: skip non-mandatory
labels; a globally applicable label needs a global record or at least one
column carrying it; a column-only label with mandatory level 2 needs a
record for every column. -/
def check_label_complete (tf : BADCtf) (level : String) (label : String)
    (fs : FieldSpec) : Except Err Unit :=
  if (if level = "basic" then fs.mandb else fs.mandc) = 0 then .ok ()
  else if fs.applyg then
    (if tf._metadata.getLabel label != [] then .ok ()
     else if tf.colnames.any (fun c => tf._metadata.getLabelCol label c != []) then
       .ok ()
     else .error .metadataIncomplete)
  else if fs.applyc && (if level = "basic" then fs.mandb else fs.mandc) == 2 then
    eachM (fun c =>
      if tf._metadata.getLabelCol label c == [] then .error .metadataIncomplete
      else .ok ()) tf.colnames
  else .ok ()

/-- BADCtf._check_complete: _check_valid first, then the per-label
completeness loop, then the requirement that at least one column carries
coordinate_variable (a wildcard-column metadata lookup). -/
def BADCtf._check_complete (tf : BADCtf) (level : String) : Except Err Unit :=
  seqE tf._check_valid
    (seqE
      (eachM (fun p => check_label_complete tf level p.1 p.2) MDinfoList)
      (eachM (fun label =>
         if tf._metadata.getLabelCol label "*" == [] then
           .error .metadataIncomplete
         else .ok ()) ["coordinate_variable"]))

/- The NASA-Ames export, up to and including its coordinate-variable
   assertions. -/

/-- Python tuple comparison on string tuples: elementwise lexicographic,
a strict prefix is smaller. -/
def pyLtStrList : List String → List String → Bool
  | [], [] => false
  | [], _ :: _ => true
  | _ :: _, [] => false
  | x :: xs, y :: ys =>
    match compare x y with
    | Ordering.lt => true
    | Ordering.gt => false
    | Ordering.eq => pyLtStrList xs ys

/-- Python min() over a list of value tuples: ValueError on an empty list,
else the first minimal element. -/
def pyMinList (l : List (List String)) : Except Err (List String) :=
  match l with
  | [] => .error .valueError
  | x :: xs => .ok (xs.foldl (fun acc y => if pyLtStrList y acc then y else acc) x)

/-- Fold with an exception-raising step (models a Python accumulation
loop whose body may raise). -/
def foldE {α β : Type} (f : β → α → Except Err β) : β → List α → Except Err β
  | b, [] => .ok b
  | b, x :: xs =>
    match f b x with
    | .error e => .error e
    | .ok b2 => foldE f b2 xs

/-- The creator loop of _NASA_Ames: concatenate creator[0] of every creator
record (IndexError on an empty record), and creator[1] of the two-value
records into the institute string. -/
def na_creator (tf : BADCtf) : Except Err (String × String) :=
  foldE (fun ci vs =>
    match vs with
    | [] => .error Err.indexError
    | v0 :: rest =>
      .ok (ci.1 ++ v0 ++ "; ",
           if vs.length = 2 then ci.2 ++ rest.headD "" ++ "; " else ci.2))
    ("", "") (tf._metadata.getLabel "creator")

/-- The source and activity loops of _NASA_Ames: concatenate record[0] of
every record of the label, then drop the final separator. -/
def na_sloop (tf : BADCtf) (label : String) : Except Err String :=
  match foldE (fun s vs =>
    match vs with
    | [] => .error Err.indexError
    | v0 :: _ => .ok (s ++ v0 ++ "; ")) "" (tf._metadata.getLabel label) with
  | .error e => .error e
  | .ok s => .ok (s.dropRight 2)

/-- The date lines of _NASA_Ames: min() over the records of the label
(ValueError when there are none), first component (IndexError on an empty
tuple), dashes replaced by spaces. -/
def na_date (tf : BADCtf) (label : String) : Except Err String :=
  match pyMinList (tf._metadata.getLabel label) with
  | .error e => .error e
  | .ok m =>
    match m with
    | [] => .error .indexError
    | v :: _ => .ok (v.replace "-" " ")

/-- The coordinate variable columns: the column names whose
coordinate_variable metadata lookup is nonempty. -/
def BADCtf.cvars (tf : BADCtf) : List String :=
  tf.colnames.filter (fun v =>
    tf._metadata.getLabelCol "coordinate_variable" v != [])

/-- BADCtf._NASA_Ames up to and including its two assertions: the header
lines built before the assertions, in source evaluation order; zero
coordinate-variable columns fails the first assertion and two or more fail
the second.  The remainder of the export (scale factors, bounds, long
names, the embedded metadata block and the data lines) runs strictly after
these assertions and is not modelled: execution never reaches it when the
assertions fail, which is all the claims need. -/
def BADCtf._NASA_Ames_head (tf : BADCtf) : Except Err (List String) :=
  match na_creator tf with
  | .error e => .error e
  | .ok ci =>
    match na_sloop tf "source" with
    | .error e => .error e
    | .ok s =>
      match na_sloop tf "activity" with
      | .error e => .error e
      | .ok a =>
        match na_date tf "date_valid" with
        | .error e => .error e
        | .ok dv =>
          match na_date tf "last_revised_date" with
          | .error e => .error e
          | .ok lr =>
            if tf.cvars.length = 0 then .error .assertionError
            else if tf.cvars.length ≠ 1 then .error .assertionError
            else
              .ok [ci.1.dropRight 2,
                   (if ci.2 = "" then "Unknown" else ci.2).dropRight 2,
                   s, a, "1 1", dv ++ "    " ++ lr, "0.0"]

/-- The rows of the data block: row i holds the i-th value of every column,
in column order. -/
def origRows (vs : List (List String)) (n : Nat) : List (List String) :=
  (List.range n).map (fun i => vs.map (fun l => l.getD i ""))

/-- The side conditions under which the canonical serialization is parsed
back verbatim: at least two columns; one column name per variable; equal
variable lengths; a nonempty final column name; no empty string stored in
the final column; no metadata value tuple ending in an empty string cell
(trailing blank cell stripping would drop it); and no column record whose
column reference is the literal G or the empty string (the first would be
re-read as a global record, the second would be stripped away). -/
def roundtrip_safe (tf : BADCtf) : Bool :=
  decide (2 ≤ tf._data.vars.length) &&
  (tf._data.colnames.length == tf._data.vars.length) &&
  tf._data.uniform &&
  (tf._data.colnames.getLast? != some "") &&
  (match tf._data.vars.getLast? with
   | some v => v.values.all (fun x => x != "")
   | none => true) &&
  tf._metadata.globalRecords.all (fun r => r.2.getLast? != some "") &&
  tf._metadata.varRecords.all (fun r =>
    r.2.1 != "G" && r.2.1 != "" && r.2.2.getLast? != some "")

/- Generic lemmas about the exception combinators. -/

lemma seqE_ok_left (b : Except Err Unit) : seqE (.ok ()) b = b := rfl

lemma seqE_error_left (e : Err) (b : Except Err Unit) :
    seqE (.error e) b = .error e := rfl

lemma seqE_eq_ok {a b : Except Err Unit} :
    seqE a b = .ok () ↔ a = .ok () ∧ b = .ok () := by
  cases a with
  | ok u => cases u; simp [seqE]
  | error e => simp [seqE]

lemma eachM_ok_iff {α : Type} (f : α → Except Err Unit) (l : List α) :
    eachM f l = .ok () ↔ ∀ x ∈ l, f x = .ok () := by
  induction l with
  | nil => simp [eachM]
  | cons a t ih =>
    cases h : f a with
    | ok u =>
      cases u
      simp [eachM, h, ih]
    | error e => simp [eachM, h]

lemma eachM_ne_ok {α : Type} (f : α → Except Err Unit) (l : List α) (x : α)
    (hx : x ∈ l) (hfx : ¬ f x = .ok ()) : ¬ eachM f l = .ok () := by
  intro h
  exact hfx ((eachM_ok_iff f l).mp h x hx)

lemma eachM_dichotomy {α : Type} (f : α → Except Err Unit) (l : List α) (e0 : Err)
    (hall : ∀ x ∈ l, f x = .ok () ∨ f x = .error e0) :
    eachM f l = .ok () ∨ eachM f l = .error e0 := by
  induction l with
  | nil => left; rfl
  | cons a t ih =>
    rcases hall a (by simp) with h | h
    · have := ih (fun x hx => hall x (by simp [hx]))
      simpa [eachM, h] using this
    · right; simp [eachM, h]

lemma eachM_fail {α : Type} (f : α → Except Err Unit) (l : List α) (e0 : Err)
    (hall : ∀ x ∈ l, f x = .ok () ∨ f x = .error e0)
    (hex : ∃ x ∈ l, ¬ f x = .ok ()) : eachM f l = .error e0 := by
  rcases eachM_dichotomy f l e0 hall with h | h
  · rcases hex with ⟨x, hx, hfx⟩
    exact absurd ((eachM_ok_iff f l).mp h x hx) hfx
  · exact h

lemma lenCheck_ok_iff (mino maxo : Nat) (values : List String) :
    lenCheck mino maxo values = .ok () ↔
      values.length ≤ maxo ∧ mino ≤ values.length := by
  unfold lenCheck
  split
  · constructor
    · intro h; cases h
    · omega
  · split
    · constructor
      · intro h; cases h
      · omega
    · simp; omega

lemma lenCheck_dichotomy (mino maxo : Nat) (values : List String) :
    lenCheck mino maxo values = .ok () ∨
      lenCheck mino maxo values = .error .metadataInvalid := by
  unfold lenCheck
  split
  · right; rfl
  · split
    · right; rfl
    · left; rfl

/- Lemmas for the data store invariant. -/

lemma zipWith_append_one_len (u : List BADCtfVariable) (vs : List String) (n : Nat)
    (h : ∀ v ∈ u, v.values.length = n) :
    ∀ w ∈ List.zipWith (fun var v => (⟨var.values ++ [v]⟩ : BADCtfVariable)) u vs,
      w.values.length = n + 1 := by
  induction u generalizing vs with
  | nil => simp
  | cons a t ih =>
    cases vs with
    | nil => simp
    | cons c cs =>
      intro w hw
      simp only [List.zipWith_cons_cons, List.mem_cons] at hw
      rcases hw with hw | hw
      · subst hw
        simp [h a (by simp)]
      · exact ih cs (fun v hv => h v (by simp [hv])) w hw

/-- C2: a successful add_variable or add_data_row leaves every variable of
the data store with one shared row count, whenever all variables had the
shared row count before the call. -/
theorem C2_uniform_preserved (d : BADCtfData) (hu : d.uniform = true) :
    (∀ name values d2, d.add_variable name values = .ok d2 → d2.uniform = true) ∧
    (∀ values d2, d.add_data_row values = .ok d2 → d2.uniform = true) := by
  obtain ⟨dv, dc⟩ := d
  have hlen : ∀ v ∈ dv, v.values.length = BADCtfData.length ⟨dv, dc⟩ := by
    intro v hv
    have := (List.all_eq_true.mp hu) v hv
    simpa using this
  constructor
  · intro name values d2 h
    unfold BADCtfData.add_variable at h
    split at h
    case isTrue hc =>
      injection h with h
      subst h
      cases dv with
      | nil =>
        simp [BADCtfData.uniform, BADCtfData.length]
      | cons a t =>
        have hl : values.length = a.values.length := by
          rcases hc with hc | hc
          · simp at hc
          · simpa [BADCtfData.length] using hc
        have hlen2 : ∀ v ∈ a :: t, v.values.length = a.values.length := by
          intro v hv
          simpa [BADCtfData.length] using hlen v hv
        unfold BADCtfData.uniform
        simp only [List.all_eq_true]
        intro v hv
        simp only [BADCtfData.length, List.cons_append] at hv ⊢
        rcases List.mem_cons.mp hv with hv | hv
        · subst hv; simp
        · rcases List.mem_append.mp hv with hv | hv
          · simpa using hlen2 v (by simp [hv])
          · simp only [List.mem_singleton] at hv
            subst hv
            simpa using hl
    case isFalse => cases h
  · intro values d2 h
    unfold BADCtfData.add_data_row at h
    split at h
    case isTrue hc =>
      injection h with h
      subst h
      cases values with
      | nil => rcases hc with ⟨_, hne⟩; simp at hne
      | cons c cs =>
        unfold BADCtfData.uniform BADCtfData.length
        simp only [List.map_cons, List.all_eq_true]
        intro w hw
        rcases List.mem_cons.mp hw with hw | hw
        · subst hw; simp
        · simp only [List.mem_map] at hw
          rcases hw with ⟨x, _, hx⟩
          subst hx; simp
    case isFalse hc1 =>
      split at h
      case isTrue hc2 =>
        injection h with h
        subst h
        unfold BADCtfData.uniform
        simp only [List.all_eq_true]
        intro w hw
        have hw2 : w ∈ List.zipWith
            (fun var v => (⟨var.values ++ [v]⟩ : BADCtfVariable)) dv values := hw
        have hmem := zipWith_append_one_len dv values
          (BADCtfData.length ⟨dv, dc⟩) hlen w hw2
        cases dv with
        | nil =>
          simp at hw2
        | cons a t =>
          have hvals : values.length = t.length + 1 := by
            unfold BADCtfData.nvar at hc2
            simpa using hc2.symm
          cases values with
          | nil => simp at hvals
          | cons c cs =>
            simp only [BADCtfData.length, List.zipWith_cons_cons]
            have hmem2 : w.values.length = a.values.length + 1 := by
              simpa [BADCtfData.length] using hmem
            simpa using hmem2
      case isFalse => cases h

/-- C2 witness: the preservation theorem applied to a concrete one-variable
store, for both operations. -/
theorem C2_uniform_preserved_witness :
    (BADCtfData.mk [⟨["a"]⟩, ⟨["b"]⟩] ["c", "d"]).uniform = true ∧
    (BADCtfData.mk [⟨["a", "x"]⟩] ["c"]).uniform = true :=
  ⟨(C2_uniform_preserved ⟨[⟨["a"]⟩], ["c"]⟩ (by decide)).1 "d" ["b"]
      ⟨[⟨["a"]⟩, ⟨["b"]⟩], ["c", "d"]⟩ (by decide),
   (C2_uniform_preserved ⟨[⟨["a"]⟩], ["c"]⟩ (by decide)).2 ["x"]
      ⟨[⟨["a", "x"]⟩], ["c"]⟩ (by decide)⟩

/-- C3 counterexample: on a store with one established variable, a
wrong-length add_variable raises the base error class BADCtfError with the
message about wrong data length, which is not the BADCtfDataError subclass
the claim names (an except clause for BADCtfDataError would not catch it). -/
theorem C3_shape_error_cex :
    (BADCtfData.mk [⟨["a"]⟩] ["c"]).add_variable "x" ["p", "q"]
      = .error .badcTfError ∧
    (BADCtfData.mk [⟨["a"]⟩] ["c"]).add_data_row ["p", "q"]
      = .error .badcTfError ∧
    Err.badcTfError ≠ Err.badcTfDataError := by
  refine ⟨by decide, by decide, by decide⟩

/-- C3 as amended: with an established width, a wrong-length add_variable or
add_data_row always fails, raising the base BADCtfError kind (not the
BADCtfDataError subclass), and never succeeds. -/
theorem C3_shape_error (d : BADCtfData) (h : 0 < d.nvar) :
    (∀ name values, values.length ≠ d.length →
       d.add_variable name values = .error .badcTfError) ∧
    (∀ values, values.length ≠ d.nvar →
       d.add_data_row values = .error .badcTfError) := by
  constructor
  · intro name values hne
    unfold BADCtfData.add_variable
    rw [if_neg]
    rintro (hl | hl)
    · unfold BADCtfData.nvar at h; omega
    · exact hne hl
  · intro values hne
    unfold BADCtfData.add_data_row
    rw [if_neg, if_neg]
    · intro hl; exact hne hl.symm
    · rintro ⟨hl, _⟩; omega

/-- C3 witness: the amended theorem applied to a concrete store and
wrong-length inputs. -/
theorem C3_shape_error_witness :
    (BADCtfData.mk [⟨["a"]⟩] ["c"]).add_variable "x" ["p", "q", "r"]
      = .error .badcTfError ∧
    (BADCtfData.mk [⟨["a"]⟩] ["c"]).add_data_row ["p", "q", "r"]
      = .error .badcTfError :=
  ⟨(C3_shape_error ⟨[⟨["a"]⟩], ["c"]⟩ (by decide)).1 "x" ["p", "q", "r"] (by decide),
   (C3_shape_error ⟨[⟨["a"]⟩], ["c"]⟩ (by decide)).2 ["p", "q", "r"] (by decide)⟩

/-- C10: add_record with a scope reference that is not a string appends to
neither record list (and raises nothing, being a total function), and hence
add_metadata returns the document unchanged. -/
theorem C10_nonstring_ref_discarded (md : BADCtfMetadata) (tf : BADCtf)
    (label : String) (values : List String) (ref : PyV)
    (h : ∀ s, ref ≠ PyV.str s) :
    md.add_record label values ref = md ∧ tf.add_metadata label values ref = tf := by
  cases ref with
  | str s => exact absurd rfl (h s)
  | int n => exact ⟨rfl, rfl⟩

/-- C10 witness: an integer scope reference leaves a concrete store and a
concrete document untouched. -/
theorem C10_nonstring_ref_discarded_witness :
    BADCtfMetadata.add_record ⟨[("t", ["v"])], []⟩ "creator" ["who"] (.int 7)
      = ⟨[("t", ["v"])], []⟩ ∧
    BADCtf.add_metadata BADCtf.new "creator" ["who"] (.int 7) = BADCtf.new :=
  C10_nonstring_ref_discarded ⟨[("t", ["v"])], []⟩ BADCtf.new "creator" ["who"]
    (.int 7) (fun _ hs => PyV.noConfusion hs)

/-- C8: in the metadata state, once the row has stripped to r, a single-cell
row whose lowercased cell is data moves the parser to the column header
state with the document unchanged, and a row of two or more cells appends a
metadata record: label from the first cell, global scope when the second
cell is G and column scope named by it otherwise, values from the remaining
cells in order. -/
theorem C8_metadata_state (tf : BADCtf) (row : List String)
    (rest : List (List String)) (r : List String)
    (hs : strip_blank_cells row = .ok r) :
    ((∃ x, r = [x] ∧ pyLower x = "data") →
       parse_rows tf 1 (row :: rest) = parse_rows tf 2 rest) ∧
    (∀ label ref values, r = label :: ref :: values →
       parse_rows tf 1 (row :: rest)
           = parse_rows (tf.add_metadata label values (.str ref)) 1 rest ∧
       (tf.add_metadata label values (.str ref))._metadata =
         (if ref = "G" then
            { globalRecords := tf._metadata.globalRecords ++ [(label, values)],
              varRecords := tf._metadata.varRecords }
          else
            { globalRecords := tf._metadata.globalRecords,
              varRecords := tf._metadata.varRecords ++ [(label, ref, values)] })) := by
  constructor
  · rintro ⟨x, hr, hx⟩
    subst hr
    simp [parse_rows, hs, hx]
  · intro label ref values hr
    subst hr
    constructor
    · simp [parse_rows, hs]
    · unfold BADCtf.add_metadata BADCtfMetadata.add_record
      split
      · simp_all
      · simp_all

/-- C8 witness: the metadata-state theorem applied to one concrete data
marker row and one concrete record row. -/
theorem C8_metadata_state_witness :
    parse_rows BADCtf.new 1 [["Data", ""]] = parse_rows BADCtf.new 2 [] ∧
    parse_rows BADCtf.new 1 [["title", "tcol", "t"]]
      = parse_rows (BADCtf.new.add_metadata "title" ["t"] (.str "tcol")) 1 [] :=
  ⟨(C8_metadata_state BADCtf.new ["Data", ""] [] ["Data"] (by decide)).1
     ⟨"Data", rfl, by decide⟩,
   ((C8_metadata_state BADCtf.new ["title", "tcol", "t"] [] ["title", "tcol", "t"]
       (by decide)).2 "title" "tcol" ["t"] rfl).1⟩

/-- C6: the code of checkLocation, run on two values that both parse as
floats but not as integers, raises ValueError, because the float check
computes int(v) first; the claim that such tuples are accepted matches the
specified float-check intent, so this is a defect of the code.  Lengths 1
and 3 behave as claimed. -/
theorem C6_location_divergence :
    pyFloatOk "1.5" = true ∧ pyIntOk "1.5" = false ∧
    pyFloatOk "2.5" = true ∧
    checkLocation ["1.5", "2.5"] = .error .valueError ∧
    checkLocation ["a", "b", "c"] = .error .valueError ∧
    checkLocation ["anywhere"] = .ok () := by
  refine ⟨by decide, by decide, by decide, by decide, by decide, by decide⟩

/-- C9: with zero coordinate-variable columns, or with two or more, the
legacy fixed-header export fails before emitting anything: every path
through the header construction either raises earlier (empty creator
record, missing dates) or reaches the coordinate-variable assertions, which
fail. -/
theorem C9_na_precondition (tf : BADCtf)
    (h : tf.cvars.length = 0 ∨ 2 ≤ tf.cvars.length) :
    ∃ e, tf._NASA_Ames_head = .error e := by
  unfold BADCtf._NASA_Ames_head
  cases h1 : na_creator tf with
  | error e => exact ⟨e, rfl⟩
  | ok ci =>
    cases h2 : na_sloop tf "source" with
    | error e => exact ⟨e, rfl⟩
    | ok s =>
      cases h3 : na_sloop tf "activity" with
      | error e => exact ⟨e, rfl⟩
      | ok a =>
        cases h4 : na_date tf "date_valid" with
        | error e => exact ⟨e, rfl⟩
        | ok dv =>
          cases h5 : na_date tf "last_revised_date" with
          | error e => exact ⟨e, rfl⟩
          | ok lr =>
            refine ⟨.assertionError, ?_⟩
            rcases h with h | h
            · simp [h]
            · have h0 : ¬ tf.cvars.length = 0 := by omega
              have h1' : tf.cvars.length ≠ 1 := by omega
              simp [h0, h1']

/-- C9 witness: a fresh document has no coordinate-variable column and the
export fails. -/
theorem C9_na_precondition_witness :
    ∃ e, BADCtf._NASA_Ames_head BADCtf.new = .error e :=
  C9_na_precondition BADCtf.new (Or.inl rfl)

/-- C7 counterexample: a document whose column c carries a title record
(title disallows column scope) while a global title record also exists
passes _check_valid, because the column-scope test of the source only runs
when the global lookup is empty. -/
theorem C7_col_scope_cex :
    BADCtf._check_valid
      ⟨⟨[⟨[]⟩], ["c"]⟩,
       ⟨[("Conventions", ["BADC-CSV", "1"]), ("title", ["t"])],
        [("title", "c", ["x"])]⟩⟩ = .ok () ∧
    ("title", "c", ["x"]) ∈
      (⟨⟨[⟨[]⟩], ["c"]⟩,
        ⟨[("Conventions", ["BADC-CSV", "1"]), ("title", ["t"])],
         [("title", "c", ["x"])]⟩⟩ : BADCtf)._metadata.varRecords ∧
    "c" ∈ (⟨⟨[⟨[]⟩], ["c"]⟩,
        ⟨[("Conventions", ["BADC-CSV", "1"]), ("title", ["t"])],
         [("title", "c", ["x"])]⟩⟩ : BADCtf).colnames ∧
    (MDinfoList.find? (fun p => p.1 == "title")).map (fun p => p.2.applyc)
      = some false := by
  refine ⟨by decide, by decide, by decide, rfl⟩

/-- C7 as amended: when a field disallows column scope, some column carries
a record with its label, and the Document has no global record for that
label, the validity pass always fails (the scope violation is reported as
MetadataInvalid when it is the violation reached); with a global record
present the source skips the column-scope test entirely. -/
theorem C7_col_scope (tf : BADCtf) (label : String) (fs : FieldSpec)
    (hmem : (label, fs) ∈ MDinfoList) (hc : fs.applyc = false)
    (hg : tf._metadata.getLabel label = [])
    (hcol : ∃ c ∈ tf.colnames, tf._metadata.getLabelCol label c ≠ []) :
    tf._check_valid ≠ .ok () := by
  unfold BADCtf._check_valid
  apply eachM_ne_ok _ _ (label, fs) hmem
  intro hok
  simp only at hok
  unfold check_label_valid at hok
  rw [seqE_eq_ok] at hok
  obtain ⟨_, hok⟩ := hok
  rw [seqE_eq_ok] at hok
  obtain ⟨h2, _⟩ := hok
  unfold valid_scope_c at h2
  rw [if_pos (by simp [hc, hg])] at h2
  rcases hcol with ⟨c, hcmem, hcne⟩
  have hcc := (eachM_ok_iff _ _).mp h2 c hcmem
  rw [if_pos (by simpa using hcne)] at hcc
  cases hcc

/-- C7 witness: a column Conventions record with no global Conventions
record makes the validity pass fail. -/
theorem C7_col_scope_witness :
    BADCtf._check_valid
      ⟨⟨[⟨[]⟩], ["c"]⟩, ⟨[], [("Conventions", "c", ["x", "y"])]⟩⟩ ≠ .ok () :=
  C7_col_scope
    ⟨⟨[⟨[]⟩], ["c"]⟩, ⟨[], [("Conventions", "c", ["x", "y"])]⟩⟩
    "Conventions"
    ⟨true, false, 2, 2, 1, 1, checkConventions,
     "Metadata conventions used. Must be BADC-CSV, 1"⟩
    (by unfold MDinfoList; exact List.mem_cons_self _ _)
    rfl (by decide) ⟨"c", by decide, by decide⟩

/-- Every exception the completeness loop body can raise is
BADCtfMetadataIncomplete. -/
lemma check_label_complete_dichotomy (tf : BADCtf) (level label : String)
    (fs : FieldSpec) :
    check_label_complete tf level label fs = .ok () ∨
      check_label_complete tf level label fs = .error .metadataIncomplete := by
  unfold check_label_complete
  by_cases h0 : (if level = "basic" then fs.mandb else fs.mandc) = 0
  · left; rw [if_pos h0]
  · rw [if_neg h0]
    by_cases hg : fs.applyg = true
    · rw [if_pos hg]
      by_cases h1 : (tf._metadata.getLabel label != []) = true
      · left; rw [if_pos h1]
      · rw [if_neg h1]
        by_cases h2 :
            (tf.colnames.any fun c => tf._metadata.getLabelCol label c != []) = true
        · left; rw [if_pos h2]
        · right; rw [if_neg h2]
    · rw [if_neg hg]
      by_cases h3 :
          (fs.applyc && (if level = "basic" then fs.mandb else fs.mandc) == 2) = true
      · rw [if_pos h3]
        refine eachM_dichotomy _ _ _ (fun c _ => ?_)
        dsimp only
        by_cases h4 : (tf._metadata.getLabelCol label c == []) = true
        · right; rw [if_pos h4]
        · left; rw [if_neg h4]
      · left; rw [if_neg h3]

/-- C5 counterexample: a document with no coordinate_variable column but an
invalid Conventions record fails _check_complete with MetadataInvalid, not
MetadataIncomplete, at both levels: _check_complete runs _check_valid
first, so the claimed error kind is not independent of the other metadata. -/
theorem C5_coord_required_cex :
    (BADCtfMetadata.mk [("Conventions", ["X", "1"])] []).varRecords = [] ∧
    BADCtf._check_complete
      (BADCtf.mk (BADCtfData.mk [] []) (BADCtfMetadata.mk [("Conventions", ["X", "1"])] []))
      "basic" = .error .metadataInvalid ∧
    BADCtf._check_complete
      (BADCtf.mk (BADCtfData.mk [] []) (BADCtfMetadata.mk [("Conventions", ["X", "1"])] []))
      "full" = .error .metadataInvalid ∧
    Err.metadataInvalid ≠ Err.metadataIncomplete := by
  refine ⟨rfl, by decide, by decide, by decide⟩

/-- C5 as amended: a document that passes the validity check and in which no
column record carries the coordinate_variable label fails _check_complete
with MetadataIncomplete at every level (the level string selects basic or
complete mandatory flags; the conclusion is uniform in it). -/
theorem C5_coord_required (tf : BADCtf) (level : String)
    (hvalid : tf._check_valid = .ok ())
    (hnone : ∀ r ∈ tf._metadata.varRecords, r.1 ≠ "coordinate_variable") :
    tf._check_complete level = .error .metadataIncomplete := by
  have hmem_cv : ("coordinate_variable",
      (⟨false, true, 0, 2, 1, 1, checkInt,
        "Flag to show which colume(s) are regarded as coordinate variables"⟩
        : FieldSpec)) ∈ MDinfoList := by
    unfold MDinfoList
    exact List.mem_cons_of_mem _ (List.mem_cons_of_mem _ (List.mem_cons_of_mem _
      (List.mem_cons_of_mem _ (List.mem_cons_of_mem _ (List.mem_cons_of_mem _
        (List.mem_cons_self _ _))))))
  have hcl := (eachM_ok_iff _ _).mp hvalid _ hmem_cv
  simp only at hcl
  unfold check_label_valid at hcl
  rw [seqE_eq_ok] at hcl
  obtain ⟨h1, _⟩ := hcl
  unfold valid_scope_g at h1
  have hg : tf._metadata.getLabel "coordinate_variable" = [] := by
    by_contra hne
    rw [if_pos (by simp [hne])] at h1
    cases h1
  have hcv : tf._metadata.getLabelCol "coordinate_variable" "*" = [] := by
    unfold BADCtfMetadata.getLabelCol
    unfold BADCtfMetadata.getLabel at hg
    rw [hg]
    simp only [List.nil_append]
    rw [List.filterMap_eq_nil_iff]
    intro r hr
    rw [if_neg]
    rintro ⟨hlab, _⟩
    exact hnone r hr hlab.symm
  unfold BADCtf._check_complete
  rw [hvalid, seqE_ok_left]
  rcases eachM_dichotomy (fun p => check_label_complete tf level p.1 p.2)
      MDinfoList .metadataIncomplete
      (fun p _ => check_label_complete_dichotomy tf level p.1 p.2) with h | h
  · rw [h, seqE_ok_left]
    simp [eachM, hcv]
  · rw [h, seqE_error_left]

/-- C5 witness: a fresh valid document with no columns at all fails the
completeness check with MetadataIncomplete at the basic level. -/
theorem C5_coord_required_witness :
    BADCtf._check_complete BADCtf.new "basic" = .error .metadataIncomplete :=
  C5_coord_required BADCtf.new "basic" (by decide) (by decide)

/- Lemmas about the metadata lookups and the Conventions check. -/

lemma mem_getLabel {md : BADCtfMetadata} {lab : String} {vs : List String}
    (h : (lab, vs) ∈ md.globalRecords) : vs ∈ md.getLabel lab := by
  unfold BADCtfMetadata.getLabel
  rw [List.mem_filterMap]
  exact ⟨(lab, vs), h, by simp⟩

lemma mem_getLabelCol {md : BADCtfMetadata} {lab c : String} {vs : List String}
    (h : (lab, c, vs) ∈ md.varRecords) : vs ∈ md.getLabelCol lab c := by
  unfold BADCtfMetadata.getLabelCol
  refine List.mem_append.mpr (Or.inr ?_)
  rw [List.mem_filterMap]
  exact ⟨(lab, c, vs), h, by simp⟩

lemma checkConventions_pair (v0 v1 : String) :
    checkConventions [v0, v1] =
      (if v0 ≠ "BADC-CSV" then .error .metadataInvalid
       else if v1 ≠ "1" then .error .metadataInvalid else .ok ()) := rfl

lemma checkConventions_bad (v0 v1 : String)
    (hbad : ¬(v0 = "BADC-CSV" ∧ v1 = "1")) :
    checkConventions [v0, v1] = .error .metadataInvalid := by
  rw [checkConventions_pair]
  by_cases h0 : v0 = "BADC-CSV"
  · rw [if_neg (by simp [h0])]
    rw [if_pos (fun h1 => hbad ⟨h0, h1⟩)]
  · rw [if_pos h0]

lemma checkConventions_two_dicho (a b : String) :
    checkConventions [a, b] = .ok () ∨
      checkConventions [a, b] = .error .metadataInvalid := by
  by_cases h : a = "BADC-CSV" ∧ b = "1"
  · left
    rw [h.1, h.2]
    rfl
  · right
    exact checkConventions_bad a b h

/- Stage lemmas for the per-label validity check. -/

lemma valid_scope_g_ok (tf : BADCtf) (label : String) (fs : FieldSpec)
    (h : fs.applyg = true) : valid_scope_g tf label fs = .ok () := by
  unfold valid_scope_g
  rw [if_neg (by simp [h])]

lemma valid_scope_c_dicho (tf : BADCtf) (label : String) (fs : FieldSpec) :
    valid_scope_c tf label fs = .ok () ∨
      valid_scope_c tf label fs = .error .metadataInvalid := by
  unfold valid_scope_c
  by_cases hcond :
      (!fs.applyc && (tf._metadata.getLabel label == [])) = true
  · rw [if_pos hcond]
    refine eachM_dichotomy _ _ _ (fun c _ => ?_)
    dsimp only
    by_cases h2 : (tf._metadata.getLabelCol label c != []) = true
    · right; rw [if_pos h2]
    · left; rw [if_neg h2]
  · left; rw [if_neg hcond]

lemma valid_len_g_dicho (tf : BADCtf) (label : String) (fs : FieldSpec) :
    valid_len_g tf label fs = .ok () ∨
      valid_len_g tf label fs = .error .metadataInvalid :=
  eachM_dichotomy _ _ _ (fun vs _ => lenCheck_dichotomy fs.mino fs.maxo vs)

lemma valid_len_c_dicho (tf : BADCtf) (label : String) (fs : FieldSpec) :
    valid_len_c tf label fs = .ok () ∨
      valid_len_c tf label fs = .error .metadataInvalid :=
  eachM_dichotomy _ _ _ (fun _ _ =>
    eachM_dichotomy _ _ _ (fun vs _ => lenCheck_dichotomy fs.mino fs.maxo vs))

lemma valid_val_g_dicho (tf : BADCtf) (label : String) (fs : FieldSpec) :
    valid_val_g tf label fs = .ok () ∨
      valid_val_g tf label fs = .error .metadataInvalid := by
  refine eachM_dichotomy _ _ _ (fun vs _ => ?_)
  dsimp only
  cases h : fs.check vs
  · right; rfl
  · left; rfl

lemma valid_val_g_fail (tf : BADCtf) (label : String) (fs : FieldSpec)
    (vs : List String) (hvs : vs ∈ tf._metadata.getLabel label)
    (hbadchk : ∃ e, fs.check vs = .error e) :
    valid_val_g tf label fs = .error .metadataInvalid := by
  refine eachM_fail _ _ _ (fun ws _ => ?_) ⟨vs, hvs, ?_⟩
  · dsimp only
    cases h : fs.check ws
    · right; rfl
    · left; rfl
  · rcases hbadchk with ⟨e, he⟩
    intro hcontra
    rw [he] at hcontra
    exact Except.noConfusion hcontra

lemma valid_len_c_ok_len (tf : BADCtf) (label : String) (fs : FieldSpec)
    (h : valid_len_c tf label fs = .ok ())
    (hmin : fs.mino = 2) (hmax : fs.maxo = 2) :
    ∀ c ∈ tf.colnames, ∀ vs ∈ tf._metadata.getLabelCol label c,
      vs.length = 2 := by
  intro c hc vs hvs
  have h1 := (eachM_ok_iff _ _).mp h c hc
  have h2 := (eachM_ok_iff _ _).mp h1 vs hvs
  rw [hmin, hmax] at h2
  have := (lenCheck_ok_iff 2 2 vs).mp h2
  omega

lemma valid_val_c_fail (tf : BADCtf) (fs : FieldSpec)
    (hall2 : ∀ c ∈ tf.colnames,
      ∀ vs ∈ tf._metadata.getLabelCol "Conventions" c, vs.length = 2)
    (hchk : fs.check = checkConventions)
    (c0 : String) (hc0 : c0 ∈ tf.colnames) (v0 v1 : String)
    (hmemc : [v0, v1] ∈ tf._metadata.getLabelCol "Conventions" c0)
    (hbad : ¬(v0 = "BADC-CSV" ∧ v1 = "1")) :
    valid_val_c tf "Conventions" fs = .error .metadataInvalid := by
  unfold valid_val_c
  refine eachM_fail _ _ _ (fun c hc => ?_) ⟨c0, hc0, ?_⟩
  · refine eachM_dichotomy _ _ _ (fun vs hvs => ?_)
    rcases List.length_eq_two.mp (hall2 c hc vs hvs) with ⟨a, b, hab⟩
    rw [hchk, hab]
    exact checkConventions_two_dicho a b
  · refine eachM_ne_ok _ _ [v0, v1] hmemc ?_
    rw [hchk, checkConventions_bad v0 v1 hbad]
    intro h
    cases h

/-- The per-label validity check fails with MetadataInvalid on any field
shaped like the Conventions entry when the document carries a two-value
record of that label, global or on a named column, whose values are not
exactly BADC-CSV and 1. -/
lemma conv_label_invalid (tf : BADCtf) (fs : FieldSpec)
    (hag : fs.applyg = true) (hac : fs.applyc = false)
    (hmin : fs.mino = 2) (hmax : fs.maxo = 2)
    (hchk : fs.check = checkConventions)
    (v0 v1 : String) (hbad : ¬(v0 = "BADC-CSV" ∧ v1 = "1"))
    (hmem : [v0, v1] ∈ tf._metadata.getLabel "Conventions" ∨
            ∃ c ∈ tf.colnames,
              [v0, v1] ∈ tf._metadata.getLabelCol "Conventions" c) :
    check_label_valid tf "Conventions" fs = .error .metadataInvalid := by
  unfold check_label_valid
  rw [valid_scope_g_ok tf _ fs hag, seqE_ok_left]
  rcases hmem with hmemg | ⟨c0, hc0, hmemc⟩
  · have hGne : tf._metadata.getLabel "Conventions" ≠ [] :=
      List.ne_nil_of_mem hmemg
    have hs2 : valid_scope_c tf "Conventions" fs = .ok () := by
      unfold valid_scope_c
      rw [if_neg (by simp [hGne])]
    rw [hs2, seqE_ok_left]
    rcases valid_len_g_dicho tf "Conventions" fs with h3 | h3
    · rw [h3, seqE_ok_left]
      rcases valid_len_c_dicho tf "Conventions" fs with h4 | h4
      · rw [h4, seqE_ok_left]
        have h5 := valid_val_g_fail tf "Conventions" fs [v0, v1] hmemg
          ⟨.metadataInvalid, by rw [hchk]; exact checkConventions_bad v0 v1 hbad⟩
        rw [h5, seqE_error_left]
      · rw [h4, seqE_error_left]
    · rw [h3, seqE_error_left]
  · by_cases hG : tf._metadata.getLabel "Conventions" = []
    · have hs2 : valid_scope_c tf "Conventions" fs = .error .metadataInvalid := by
        unfold valid_scope_c
        rw [if_pos (by simp [hac, hG])]
        refine eachM_fail _ _ _ (fun c _ => ?_) ⟨c0, hc0, ?_⟩
        · dsimp only
          by_cases hcc : (tf._metadata.getLabelCol "Conventions" c != []) = true
          · right; rw [if_pos hcc]
          · left; rw [if_neg hcc]
        · dsimp only
          rw [if_pos (by simp [List.ne_nil_of_mem hmemc])]
          intro h
          cases h
      rw [hs2, seqE_error_left]
    · have hs2 : valid_scope_c tf "Conventions" fs = .ok () := by
        unfold valid_scope_c
        rw [if_neg (by simp [hG])]
      rw [hs2, seqE_ok_left]
      rcases valid_len_g_dicho tf "Conventions" fs with h3 | h3
      · rw [h3, seqE_ok_left]
        rcases valid_len_c_dicho tf "Conventions" fs with h4 | h4
        · rw [h4, seqE_ok_left]
          rcases valid_val_g_dicho tf "Conventions" fs with h5 | h5
          · rw [h5, seqE_ok_left]
            exact valid_val_c_fail tf fs
              (valid_len_c_ok_len tf "Conventions" fs h4 hmin hmax)
              hchk c0 hc0 v0 v1 hmemc hbad
          · rw [h5, seqE_error_left]
        · rw [h4, seqE_error_left]
      · rw [h3, seqE_error_left]

/-- The registry iteration starts at the Conventions entry (lexicographic
order), so _check_valid is its check sequenced before the rest. -/
lemma check_valid_head (tf : BADCtf) :
    tf._check_valid =
      seqE (check_label_valid tf "Conventions"
        ⟨true, false, 2, 2, 1, 1, checkConventions,
         "Metadata conventions used. Must be BADC-CSV, 1"⟩)
        (eachM (fun p => check_label_valid tf p.1 p.2) MDinfoList.tail) := rfl

/-- C4: a Conventions record, global or column-scoped on a named column,
whose two values are not exactly BADC-CSV and 1, always makes _check_valid
fail with MetadataInvalid; and a Conventions values tuple equal to
(BADC-CSV, 1) passes the conventions check. -/
theorem C4_conventions (tf : BADCtf) (v0 v1 : String)
    (hbad : ¬(v0 = "BADC-CSV" ∧ v1 = "1"))
    (hmem : ("Conventions", [v0, v1]) ∈ tf._metadata.globalRecords ∨
            ∃ c ∈ tf.colnames,
              ("Conventions", c, [v0, v1]) ∈ tf._metadata.varRecords) :
    tf._check_valid = .error .metadataInvalid ∧
      checkConventions ["BADC-CSV", "1"] = .ok () := by
  refine ⟨?_, rfl⟩
  have hmem2 : [v0, v1] ∈ tf._metadata.getLabel "Conventions" ∨
      ∃ c ∈ tf.colnames,
        [v0, v1] ∈ tf._metadata.getLabelCol "Conventions" c := by
    rcases hmem with h | ⟨c, hc, h⟩
    · exact Or.inl (mem_getLabel h)
    · exact Or.inr ⟨c, hc, mem_getLabelCol h⟩
  have hCL := conv_label_invalid tf
    ⟨true, false, 2, 2, 1, 1, checkConventions,
     "Metadata conventions used. Must be BADC-CSV, 1"⟩
    rfl rfl rfl rfl rfl v0 v1 hbad hmem2
  rw [check_valid_head, hCL, seqE_error_left]

/-- C4 witness: a document whose Conventions record reads (X, 1) fails the
validity pass with MetadataInvalid. -/
theorem C4_conventions_witness :
    BADCtf._check_valid
      (BADCtf.mk (BADCtfData.mk [] []) (BADCtfMetadata.mk
        [("Conventions", ["X", "1"])] []))
      = .error .metadataInvalid ∧
    checkConventions ["BADC-CSV", "1"] = .ok () :=
  C4_conventions
    (BADCtf.mk (BADCtfData.mk [] []) (BADCtfMetadata.mk
      [("Conventions", ["X", "1"])] []))
    "X" "1" (by decide) (Or.inl (by decide))

/- Helper lemmas for the round-trip theorem. -/

lemma strip_ok (r : List String) (hne : r ≠ []) (hlast : r.getLast? ≠ some "") :
    strip_blank_cells r = .ok r := by
  unfold strip_blank_cells
  have hrev : r.reverse ≠ [] := by simpa using hne
  obtain ⟨a, t, hat⟩ := List.exists_cons_of_ne_nil hrev
  have ha : ¬(a == "") = true := by
    have h1 : r.getLast? = some a := by
      rw [← List.head?_reverse, hat]
      rfl
    simp only [beq_iff_eq]
    intro he
    exact hlast (he ▸ h1)
  rw [hat, List.dropWhile_cons, if_neg ha, ← hat, List.reverse_reverse]
  rw [if_neg (by simp [hne])]

lemma getD_of_lt (l : List String) (i : Nat) (h : i < l.length) :
    l.get? i = some (l.getD i "") := by
  induction l generalizing i with
  | nil => simp at h
  | cons a t ih =>
    cases i with
    | zero => rfl
    | succ j =>
      simp only [List.length_cons] at h
      exact ih j (by omega)

lemma exists_cons_cons_of_two_le {α : Type} (l : List α) (h : 2 ≤ l.length) :
    ∃ a b t, l = a :: b :: t := by
  cases l with
  | nil => simp at h
  | cons a l2 =>
    cases l2 with
    | nil => simp at h
    | cons b t => exact ⟨a, b, t, rfl⟩

lemma zipWith_append_nil_right (us vs : List (List String))
    (hlen : us.length = vs.length) (h : ∀ l ∈ vs, l = []) :
    List.zipWith (fun a b => a ++ b) us vs = us := by
  induction us generalizing vs with
  | nil => simp
  | cons u ut ih =>
    cases vs with
    | nil => simp at hlen
    | cons v vt =>
      simp only [List.zipWith_cons_cons]
      rw [h v (by simp)]
      simp only [List.append_nil, List.cons.injEq, true_and]
      exact ih vt (by simpa using hlen) (fun l hl => h l (by simp [hl]))

lemma zipWith_append_nil_left (us vs : List (List String))
    (hlen : us.length = vs.length) (h : ∀ l ∈ us, l = []) :
    List.zipWith (fun a b => a ++ b) us vs = vs := by
  induction us generalizing vs with
  | nil => cases vs with
    | nil => rfl
    | cons v vt => simp at hlen
  | cons u ut ih =>
    cases vs with
    | nil => simp at hlen
    | cons v vt =>
      simp only [List.zipWith_cons_cons]
      rw [h u (by simp)]
      simp only [List.nil_append, List.cons.injEq, true_and]
      exact ih vt (by simpa using hlen) (fun l hl => h l (by simp [hl]))

lemma zipWith_step (us vs : List (List String)) (hne : ∀ l ∈ vs, l ≠ []) :
    List.zipWith (fun a b => a ++ b)
      (List.zipWith (fun u c => u ++ [c]) us (vs.map (fun l => l.getD 0 "")))
      (vs.map List.tail)
      = List.zipWith (fun a b => a ++ b) us vs := by
  induction us generalizing vs with
  | nil => simp
  | cons u ut ih =>
    cases vs with
    | nil => simp
    | cons v vt =>
      simp only [List.map_cons, List.zipWith_cons_cons]
      have hv : v ≠ [] := hne v (by simp)
      obtain ⟨x, xt, hx⟩ := List.exists_cons_of_ne_nil hv
      subst hx
      simp only [List.getD_cons_zero, List.tail_cons, List.cons.injEq]
      constructor
      · simp
      · exact ih vt (fun l hl => hne l (by simp [hl]))

lemma zipWith_mk_append (us : List (List String)) (row : List String) :
    List.zipWith (fun (var : BADCtfVariable) v => (⟨var.values ++ [v]⟩ : BADCtfVariable))
        (us.map (fun u => ⟨u⟩)) row
      = (List.zipWith (fun u c => u ++ [c]) us row).map (fun u => ⟨u⟩) := by
  induction us generalizing row with
  | nil => simp
  | cons u ut ih =>
    cases row with
    | nil => simp
    | cons c ct =>
      simp only [List.map_cons, List.zipWith_cons_cons, List.cons.injEq, true_and]
      exact ih ct

lemma origRows_succ (vs : List (List String)) (n : Nat)
    (h : ∀ l ∈ vs, l ≠ []) :
    origRows vs (n + 1) =
      (vs.map (fun l => l.getD 0 "")) :: origRows (vs.map List.tail) n := by
  unfold origRows
  rw [List.range_succ_eq_map]
  simp only [List.map_cons, List.map_map]
  congr 1
  refine List.map_congr_left (fun i _ => ?_)
  simp only [Function.comp_apply, List.map_map]
  refine List.map_congr_left (fun l hl => ?_)
  obtain ⟨x, t, hx⟩ := List.exists_cons_of_ne_nil (h l hl)
  subst hx
  rfl

lemma exceptMapM_ok_of_all {α β : Type} (f : α → Except Err β) (g : α → β)
    (l : List α) (h : ∀ x ∈ l, f x = .ok (g x)) :
    exceptMapM f l = .ok (l.map g) := by
  induction l with
  | nil => rfl
  | cons a t ih =>
    simp only [exceptMapM, h a (by simp), List.map_cons]
    rw [ih (fun x hx => h x (by simp [hx]))]

lemma getrow_map_mk (vs : List (List String)) (cn : List String) (i : Nat)
    (h : ∀ l ∈ vs, i < l.length) :
    BADCtfData.getrow ⟨vs.map (fun u => ⟨u⟩), cn⟩ i
      = .ok (vs.map (fun l => l.getD i "")) := by
  unfold BADCtfData.getrow
  have hall : ∀ v ∈ vs.map (fun u => (⟨u⟩ : BADCtfVariable)),
      (match v.values.get? i with
       | some x => (Except.ok x : Except Err String)
       | none => Except.error Err.indexError) = .ok (v.values.getD i "") := by
    intro v hv
    obtain ⟨l, hl, rfl⟩ := List.mem_map.mp hv
    show (match l.get? i with
          | some x => (Except.ok x : Except Err String)
          | none => Except.error Err.indexError) = .ok (l.getD i "")
    rw [getD_of_lt l i (h l hl)]
  rw [exceptMapM_ok_of_all _ _ _ hall, List.map_map]
  rfl

lemma csvRows_ok (vs : List (List String)) (cn : List String) (n : Nat)
    (hn : ∀ l ∈ vs, l.length = n)
    (hlen0 : BADCtfData.length ⟨vs.map (fun u => ⟨u⟩), cn⟩ = n) :
    BADCtfData.csvRows ⟨vs.map (fun u => ⟨u⟩), cn⟩
      = .ok ([["Data"], cn] ++ origRows vs n ++ [["End Data"]]) := by
  unfold BADCtfData.csvRows
  rw [hlen0]
  rw [exceptMapM_ok_of_all _ (fun i => vs.map (fun l => l.getD i "")) _
    (fun i hi => getrow_map_mk vs cn i
      (fun l hl => by rw [hn l hl]; exact List.mem_range.mp hi))]
  rfl

/- Parser lemmas: one per section of the canonical layout. -/

lemma parse_md_globals (gs : List (String × List String)) :
    ∀ (tf : BADCtf) (rest : List (List String)),
      (∀ r ∈ gs, r.2.getLast? ≠ some "") →
      parse_rows tf 1 (gs.map (fun r => r.1 :: "G" :: r.2) ++ rest)
        = parse_rows
            { tf with _metadata := { tf._metadata with
                globalRecords := tf._metadata.globalRecords ++ gs } } 1 rest := by
  induction gs with
  | nil =>
    intro tf rest _
    simp
  | cons g gs ih =>
    intro tf rest h
    have hstrip : strip_blank_cells (g.1 :: "G" :: g.2) = .ok (g.1 :: "G" :: g.2) := by
      apply strip_ok
      · simp
      · cases hg2 : g.2 with
        | nil => simp
        | cons x xs =>
          have hx := h g (by simp)
          rw [hg2] at hx
          simpa [List.getLast?_cons_cons] using hx
    simp only [List.map_cons, List.cons_append]
    rw [show parse_rows tf 1 ((g.1 :: "G" :: g.2) :: (gs.map (fun r => r.1 :: "G" :: r.2) ++ rest))
          = parse_rows (tf.add_metadata g.1 g.2 (.str "G")) 1
              (gs.map (fun r => r.1 :: "G" :: r.2) ++ rest) from by
      simp [parse_rows, hstrip]]
    rw [ih _ _ (fun r hr => h r (by simp [hr]))]
    congr 1
    simp [BADCtf.add_metadata, BADCtfMetadata.add_record]

lemma parse_md_vars (vrs : List (String × String × List String)) :
    ∀ (tf : BADCtf) (rest : List (List String)),
      (∀ r ∈ vrs, r.2.1 ≠ "G" ∧ r.2.1 ≠ "" ∧ r.2.2.getLast? ≠ some "") →
      parse_rows tf 1 (vrs.map (fun r => r.1 :: r.2.1 :: r.2.2) ++ rest)
        = parse_rows
            { tf with _metadata := { tf._metadata with
                varRecords := tf._metadata.varRecords ++ vrs } } 1 rest := by
  induction vrs with
  | nil =>
    intro tf rest _
    simp
  | cons g gs ih =>
    intro tf rest h
    obtain ⟨hG, hE, hL⟩ := h g (by simp)
    have hstrip : strip_blank_cells (g.1 :: g.2.1 :: g.2.2)
        = .ok (g.1 :: g.2.1 :: g.2.2) := by
      apply strip_ok
      · simp
      · cases hg2 : g.2.2 with
        | nil => simpa [List.getLast?_cons_cons] using hE
        | cons x xs =>
          rw [hg2] at hL
          simpa [List.getLast?_cons_cons] using hL
    simp only [List.map_cons, List.cons_append]
    rw [show parse_rows tf 1
          ((g.1 :: g.2.1 :: g.2.2) :: (gs.map (fun r => r.1 :: r.2.1 :: r.2.2) ++ rest))
          = parse_rows (tf.add_metadata g.1 g.2.2 (.str g.2.1)) 1
              (gs.map (fun r => r.1 :: r.2.1 :: r.2.2) ++ rest) from by
      simp [parse_rows, hstrip]]
    rw [ih _ _ (fun r hr => h r (by simp [hr]))]
    congr 1
    simp [BADCtf.add_metadata, BADCtfMetadata.add_record, hG]

lemma parse_data_marker (tf : BADCtf) (rest : List (List String)) :
    parse_rows tf 1 (["Data"] :: rest) = parse_rows tf 2 rest := by
  simp [parse_rows, show strip_blank_cells ["Data"] = .ok ["Data"] from rfl,
    show pyLower "Data" = "data" from rfl]

lemma add_variables_empties (names : List String) :
    ∀ (us : List BADCtfVariable) (cn : List String) (md : BADCtfMetadata),
      (∀ v ∈ us, v.values.length = 0) →
      BADCtf.add_variables ⟨⟨us, cn⟩, md⟩ names
        = .ok ⟨⟨us ++ names.map (fun _ => ⟨[]⟩), cn ++ names⟩, md⟩ := by
  induction names with
  | nil =>
    intro us cn md _
    simp [BADCtf.add_variables]
  | cons c cs ih =>
    intro us cn md h
    have hd : BADCtfData.add_variable ⟨us, cn⟩ c []
        = .ok ⟨us ++ [⟨[]⟩], cn ++ [c]⟩ := by
      unfold BADCtfData.add_variable
      rw [if_pos]
      cases us with
      | nil => left; rfl
      | cons v t =>
        right
        have := h v (by simp)
        simp [BADCtfData.length, this]
    simp only [BADCtf.add_variables, BADCtf.add_variable, hd]
    have hih := ih (us ++ [(⟨[]⟩ : BADCtfVariable)]) (cn ++ [c]) md (by
      intro v hv
      rcases List.mem_append.mp hv with hv | hv
      · exact h v hv
      · simp only [List.mem_singleton] at hv
        subst hv
        rfl)
    rw [hih]
    simp [List.append_assoc]

lemma parse_row3_step (us : List (List String)) (cn : List String)
    (md : BADCtfMetadata) (rest : List (List String)) (r : List String)
    (hr2 : 2 ≤ r.length) (hlen : us.length = r.length)
    (hstrip : strip_blank_cells r = .ok r) :
    parse_rows ⟨⟨us.map (fun u => ⟨u⟩), cn⟩, md⟩ 3 (r :: rest)
      = parse_rows
          ⟨⟨(List.zipWith (fun u c => u ++ [c]) us r).map (fun u => ⟨u⟩), cn⟩, md⟩
          3 rest := by
  obtain ⟨a, b, t, he⟩ := exists_cons_cons_of_two_le r hr2
  subst he
  have hadd : BADCtf.add_datarecord ⟨⟨us.map (fun u => ⟨u⟩), cn⟩, md⟩ (a :: b :: t)
      = .ok ⟨⟨(List.zipWith (fun u c => u ++ [c]) us (a :: b :: t)).map
          (fun u => ⟨u⟩), cn⟩, md⟩ := by
    unfold BADCtf.add_datarecord BADCtfData.add_data_row
    rw [if_neg, if_pos]
    · rw [zipWith_mk_append]
    · simp [BADCtfData.nvar, hlen]
    · rintro ⟨h0, _⟩
      simp only [BADCtfData.nvar, List.length_map] at h0
      rw [h0] at hlen
      simp at hlen
  have h31 : ¬((3 : Nat) = 1) := by omega
  have h32 : ¬((3 : Nat) = 2) := by omega
  simp only [parse_rows, hstrip, if_neg h31, if_neg h32, if_pos rfl]
  rw [hadd]
  simp

lemma parse_end_data (tf : BADCtf) (rest : List (List String)) :
    parse_rows tf 3 (["End Data"] :: rest) = .ok tf := by
  have h31 : ¬((3 : Nat) = 1) := by omega
  have h32 : ¬((3 : Nat) = 2) := by omega
  simp only [parse_rows, if_neg h31, if_neg h32, if_pos rfl,
    show strip_blank_cells ["End Data"] = .ok ["End Data"] from rfl]
  rw [if_pos (show pyLower "End Data" = "end data" from rfl)]
  simp

lemma parse_data_rows (n : Nat) :
    ∀ (vs us : List (List String)) (cn : List String) (md : BADCtfMetadata)
      (rest : List (List String)),
      us.length = vs.length → 2 ≤ vs.length →
      (∀ l ∈ vs, l.length = n) →
      (∀ x ∈ vs.getLast?.getD [], x ≠ "") →
      parse_rows ⟨⟨us.map (fun u => ⟨u⟩), cn⟩, md⟩ 3 (origRows vs n ++ rest)
        = parse_rows
            ⟨⟨(List.zipWith (fun a b => a ++ b) us vs).map (fun u => ⟨u⟩), cn⟩, md⟩
            3 rest := by
  induction n with
  | zero =>
    intro vs us cn md rest hlen _ hn _
    have hnil : ∀ l ∈ vs, l = [] := fun l hl => List.length_eq_zero.mp (hn l hl)
    rw [show origRows vs 0 = [] from rfl, List.nil_append,
        zipWith_append_nil_right us vs hlen hnil]
  | succ n ih =>
    intro vs us cn md rest hlen h2 hn hlast
    have hne : ∀ l ∈ vs, l ≠ [] := by
      intro l hl he
      have := hn l hl
      rw [he] at this
      simp at this
    have hvs_ne : vs ≠ [] := by
      intro he
      rw [he] at h2
      simp at h2
    obtain ⟨ll, lt, hrev⟩ := List.exists_cons_of_ne_nil
      (show vs.reverse ≠ [] from by simpa using hvs_ne)
    have hll : vs.getLast? = some ll := by
      rw [← List.head?_reverse, hrev]
      rfl
    have hllmem : ll ∈ vs := by
      rw [← List.mem_reverse, hrev]
      simp
    have hllne : ll ≠ [] := hne ll hllmem
    obtain ⟨x0, xt, hx0⟩ := List.exists_cons_of_ne_nil hllne
    have hrow0len : (vs.map (fun l => l.getD 0 "")).length = vs.length := by simp
    have hstrip : strip_blank_cells (vs.map (fun l => l.getD 0 ""))
        = .ok (vs.map (fun l => l.getD 0 "")) := by
      apply strip_ok
      · intro he
        exact hvs_ne (by simpa using he)
      · rw [List.getLast?_map, hll]
        simp only [Option.map_some']
        intro hcontra
        have hx0mem : x0 ∈ ll := by rw [hx0]; simp
        have := hlast x0 (by rw [hll]; simpa using hx0mem)
        apply this
        have heq := Option.some.inj hcontra
        rw [hx0] at heq
        simpa using heq
    rw [origRows_succ vs n hne, List.cons_append,
        parse_row3_step us cn md _ _ (by rw [hrow0len]; omega)
          (by rw [hrow0len, hlen]) hstrip]
    have key := ih (vs.map List.tail)
      (List.zipWith (fun u c => u ++ [c]) us (vs.map (fun l => l.getD 0 "")))
      cn md rest ?_ ?_ ?_ ?_
    · rw [key, zipWith_step us vs hne]
    · simp [List.length_zipWith, hrow0len, hlen]
    · simpa using h2
    · intro l hl
      obtain ⟨l0, hl0, rfl⟩ := List.mem_map.mp hl
      have := hn l0 hl0
      rw [List.length_tail, this]
      omega
    · intro x hx
      rw [List.getLast?_map, hll] at hx
      simp only [Option.map_some', Option.getD_some] at hx
      exact hlast x (by rw [hll]; exact Option.getD_some ▸ List.mem_of_mem_tail hx)

/-- C1 counterexample: the fresh write-mode document is valid, but parsing
its canonical serialization back raises IndexError instead of returning an
equal document: the column-name row of a zero-column document serializes as
a blank row, on which the trailing-cell stripping indexes row[-1] of an
empty list. -/
theorem C1_roundtrip_cex :
    BADCtf._check_valid BADCtf.new = .ok () ∧
    BADCtf._csv BADCtf.new =
      .ok [["Conventions", "G", "BADC-CSV", "1"], ["Data"], [], ["End Data"]] ∧
    BADCtf._parse [["Conventions", "G", "BADC-CSV", "1"], ["Data"], [], ["End Data"]]
      = .error .indexError := by
  refine ⟨by decide, by decide, by decide⟩

/-- C1 as amended: for every Document satisfying roundtrip_safe, the
canonical serialization succeeds and parsing it back yields exactly the
original Document: the global and column metadata record lists, the column
names and every column data sequence are reproduced verbatim. -/
theorem C1_roundtrip (tf : BADCtf) (h : roundtrip_safe tf = true) :
    ∃ rows, tf._csv = .ok rows ∧ BADCtf._parse rows = .ok tf := by
  obtain ⟨⟨dvars, dcols⟩, ⟨mg, mv⟩⟩ := tf
  unfold roundtrip_safe at h
  simp only [Bool.and_eq_true, decide_eq_true_eq, beq_iff_eq, bne_iff_ne,
    List.all_eq_true] at h
  obtain ⟨⟨⟨⟨⟨⟨h1, h2⟩, h3⟩, h4⟩, h5⟩, h6⟩, h7⟩ := h
  have hn_vars : ∀ v ∈ dvars, v.values.length = BADCtfData.length ⟨dvars, dcols⟩ := by
    unfold BADCtfData.uniform at h3
    intro v hv
    have := List.all_eq_true.mp h3 v hv
    simpa using this
  set vs := dvars.map (fun v => v.values) with hvs
  have hmk : vs.map (fun u => (⟨u⟩ : BADCtfVariable)) = dvars := by
    rw [hvs, List.map_map]
    have : ((fun u => (⟨u⟩ : BADCtfVariable)) ∘ fun (v : BADCtfVariable) => v.values)
        = fun v => v := funext (fun v => rfl)
    rw [this]
    simp
  set n := BADCtfData.length ⟨dvars, dcols⟩ with hndef
  have hn_vs : ∀ l ∈ vs, l.length = n := by
    intro l hl
    obtain ⟨v, hv, rfl⟩ := List.mem_map.mp hl
    exact hn_vars v hv
  have hlen0 : BADCtfData.length ⟨vs.map (fun u => ⟨u⟩), dcols⟩ = n := by
    rw [hmk]
  have hvslen : vs.length = dvars.length := by simp [hvs]
  refine ⟨BADCtfMetadata.csvRows ⟨mg, mv⟩ ++
    ([["Data"], dcols] ++ origRows vs n ++ [["End Data"]]), ?_, ?_⟩
  · unfold BADCtf._csv
    have hdata : BADCtfData.csvRows ⟨dvars, dcols⟩
        = .ok ([["Data"], dcols] ++ origRows vs n ++ [["End Data"]]) := by
      rw [← hmk]
      exact csvRows_ok vs dcols n hn_vs hlen0
    rw [hdata]
  · unfold BADCtf._parse
    simp only [BADCtfMetadata.csvRows]
    rw [List.append_assoc]
    rw [parse_md_globals mg _ _ h6]
    rw [parse_md_vars mv _ _
      (fun r hr => by obtain ⟨⟨a, b⟩, c⟩ := h7 r hr; exact ⟨a, b, c⟩)]
    simp only [BADCtf.empty, List.nil_append]
    rw [show ([["Data"], dcols] ++ origRows vs n ++ [["End Data"]])
        = ["Data"] :: (dcols :: (origRows vs n ++ [["End Data"]])) from by simp]
    rw [parse_data_marker]
    have hdcols_ne : dcols ≠ [] := by
      intro he
      rw [he] at h2
      simp at h2
      omega
    have hstripcols : strip_blank_cells dcols = .ok dcols :=
      strip_ok dcols hdcols_ne h4
    have h21 : ¬((2 : Nat) = 1) := by omega
    simp only [parse_rows, if_neg h21, if_pos rfl, if_true, hstripcols]
    rw [show BADCtf.add_variables
          ⟨⟨[], []⟩, ⟨mg, mv⟩⟩ dcols
        = .ok ⟨⟨[] ++ dcols.map (fun _ => ⟨[]⟩), [] ++ dcols⟩, ⟨mg, mv⟩⟩ from
      add_variables_empties dcols [] [] ⟨mg, mv⟩ (by simp)]
    simp only [List.nil_append]
    have hconv : dcols.map (fun _ => (⟨[]⟩ : BADCtfVariable))
        = (dcols.map (fun _ => ([] : List String))).map (fun u => (⟨u⟩ : BADCtfVariable)) := by
      rw [List.map_map]
      rfl
    rw [hconv]
    have hrows := parse_data_rows n vs (dcols.map (fun _ => ([] : List String)))
      dcols ⟨mg, mv⟩ [["End Data"]] ?_ ?_ hn_vs ?_
    · rw [hrows]
      rw [zipWith_append_nil_left (dcols.map (fun _ => ([] : List String))) vs
        (by simp [hvslen, h2])
        (by intro l hl
            obtain ⟨c0, hc0, hcl⟩ := List.mem_map.mp hl
            exact hcl.symm)]
      rw [hmk]
      exact parse_end_data _ _
    · simp [hvslen, h2]
    · rw [hvslen]
      exact h1
    · intro x hx
      rw [hvs, List.getLast?_map] at hx
      cases hg : dvars.getLast? with
      | none => rw [hg] at hx; simp at hx
      | some v =>
        rw [hg] at hx h5
        simp only [Option.map_some', Option.getD_some] at hx
        have := List.all_eq_true.mp h5 x hx
        simpa using this

/-- C1 witness: a concrete two-column one-row document with one global and
one column metadata record round-trips. -/
theorem C1_roundtrip_witness :
    ∃ rows,
      BADCtf._csv
        (BADCtf.mk (BADCtfData.mk [⟨["1"]⟩, ⟨["2"]⟩] ["a", "b"])
          (BADCtfMetadata.mk [("Conventions", ["BADC-CSV", "1"])]
            [("long_name", "a", ["x", "u"])])) = .ok rows ∧
      BADCtf._parse rows
        = .ok (BADCtf.mk (BADCtfData.mk [⟨["1"]⟩, ⟨["2"]⟩] ["a", "b"])
            (BADCtfMetadata.mk [("Conventions", ["BADC-CSV", "1"])]
              [("long_name", "a", ["x", "u"])])) :=
  C1_roundtrip
    (BADCtf.mk (BADCtfData.mk [⟨["1"]⟩, ⟨["2"]⟩] ["a", "b"])
      (BADCtfMetadata.mk [("Conventions", ["BADC-CSV", "1"])]
        [("long_name", "a", ["x", "u"])]))
    (by decide)
